import Mathlib

/-!
# Verification of `lib/logger.js`

A shallow embedding of the logging facility in `lib/logger.js`.  Values
passed to logging calls are modelled by `JSValue`; the observable actions
of a call (console output, directory creation, file appends) are modelled
by lists of `Effect`; load-time globals and per-call external outcomes
(current date, filesystem errors, the `util.inspect` collaborator, the
chalk style table) live in an explicit environment `Env`.
-/

set_option maxRecDepth 4096

namespace Logger

/-- Options record handed to `util.inspect` (external Node collaborator):
`colors`, `depth` (`none` models JavaScript `null`, i.e. unlimited),
`showProxy`, `showHidden`. -/
structure InspectOptions where
  colors : Bool
  depth : Option Nat
  showProxy : Bool
  showHidden : Bool
deriving DecidableEq, Repr

/-- A JavaScript value as the logger observes it.  The logger only ever
distinguishes `undefined`, `null`, non-null objects (`typeof v === 'object'`,
handed verbatim to `util.inspect`) and the remaining primitives, which it
only uses through their string conversion; hence a primitive is carried as
its `String(v)` form and an object as an opaque identity inspected through
the environment. -/
inductive JSValue where
  | undef
  | nullV
  | prim (s : String)
  | obj (o : Nat)
deriving DecidableEq, Repr

/-- A chalk style (`chalk['cyan']` etc.): the three stylings the logger
applies — `style(x)`, `style.bold(x)`, `style.bold.inverse(x)`. -/
structure Style where
  plain : String → String
  boldStyled : String → String
  boldInverse : String → String

/-- The UTC fields of the current instant, as `Date.prototype.toISOString`
renders them. -/
structure DateParts where
  year : Nat
  month : Nat
  day : Nat
  hour : Nat
  minute : Nat
  second : Nat
  millisecond : Nat
deriving DecidableEq, Repr

/-- Module-level state and external collaborators of `lib/logger.js`:
the app identity and resolved log directory (load-time globals), the
basename source `module.parent.filename`, the `is-debug` flag,
`process.type`, the mutable `writeToFile` flag, the current date, the
`util.inspect` collaborator, the outcome of the next `fs.mkdirp` /
`fs.appendFile` call (`some e` = failure with error `e`), and the five
chalk styles. -/
structure Env where
  appName : String
  appLogDirectory : String
  parentFilename : String
  isDebug : Bool
  processType : String
  writeToFile : Bool
  now : DateParts
  inspect : InspectOptions → Nat → String
  mkdirpErr : Option String
  appendErr : Option String
  styleDefault : Style
  styleError : Style
  styleDebug : Style
  styleInfo : Style
  styleWarn : Style

/-- Observable actions of a logging call: a `console.log` line, a
`console.error` line, a successful recursive directory creation, a
successful file append. -/
inductive Effect where
  | consoleLog (s : String)
  | consoleError (s : String)
  | dirCreated (dir : String)
  | fileAppended (path : String) (data : String)
deriving DecidableEq, Repr

/-! ## Path helpers (POSIX `path.join` / `path.basename` / `path.dirname`) -/

/-- Model of `path.join(a, b)` for a normalized directory `a` and plain name `b`. -/
def pathJoin (a b : String) : String := a ++ "/" ++ b

/-- Model of `path.basename`: the part after the last `/`. -/
def basename (p : String) : String :=
  String.mk ((p.data.reverse.takeWhile (fun c => c ≠ '/')).reverse)

/-- Model of lodash `_.toUpper`: upper-case every character. -/
def jsToUpper (s : String) : String := String.mk (s.data.map Char.toUpper)

/-- Model of `path.dirname`: the part before the last `/`. -/
def dirname (p : String) : String :=
  String.mk (((p.data.reverse.dropWhile (fun c => c ≠ '/')).drop 1).reverse)

/-- The global `appLogFile = path.join(appLogDirectory, appName + '.log')`. -/
def appLogFile (env : Env) : String :=
  pathJoin env.appLogDirectory (env.appName ++ ".log")

/-! ## The timestamp pipeline of `write`

`date.toISOString().replace(/Z|T|\..+/gi, ' ').trim().split(' ').reverse().join(' ')`
-/

/-- Decimal digits of `n`, most significant first, via the standard
divide-by-ten loop (`fuel` bounds the recursion; `natDigits` supplies
enough).  Models JavaScript's decimal rendering of the date fields. -/
def toDecimalAux : Nat → Nat → List Char → List Char
  | 0, _, acc => acc
  | fuel + 1, n, acc =>
    let acc' := Char.ofNat (48 + n % 10) :: acc
    if n < 10 then acc' else toDecimalAux fuel (n / 10) acc'

/-- Decimal digit characters of `n`. -/
def natDigits (n : Nat) : List Char := toDecimalAux (n + 1) n []

/-- Zero-pad on the left to width `w`, as `toISOString` pads date fields. -/
def padNat (w n : Nat) : List Char :=
  List.replicate (w - (natDigits n).length) '0' ++ natDigits n

/-- The `YYYY-MM-DD` date chunk of the ISO-8601 rendering. -/
def isoDateChars (d : DateParts) : List Char :=
  padNat 4 d.year ++ '-' :: padNat 2 d.month ++ '-' :: padNat 2 d.day

/-- The `HH:MM:SS` time chunk of the ISO-8601 rendering. -/
def isoTimeChars (d : DateParts) : List Char :=
  padNat 2 d.hour ++ ':' :: padNat 2 d.minute ++ ':' :: padNat 2 d.second

/-- Model of `Date.prototype.toISOString`: `YYYY-MM-DDTHH:MM:SS.mmmZ` (years are
rendered with the plain four-digit format; the extended-year ISO form is
out of the model's scope). -/
def isoChars (d : DateParts) : List Char :=
  isoDateChars d ++ 'T' :: isoTimeChars d ++ '.' :: padNat 3 d.millisecond ++ ['Z']

/-- Model of `String.prototype.replace(/Z|T|\..+/gi, ' ')` specialised to inputs
without newlines: scanning left to right, a `Z`/`z`/`T`/`t` becomes a
space, and a `.` followed by at least one character swallows the rest of
the string into a single space (`.+` is greedy and the match runs to the
end of the string). -/
def stripRegex : List Char → List Char
  | [] => []
  | c :: rest =>
    if c == 'Z' || c == 'z' || c == 'T' || c == 't' then ' ' :: stripRegex rest
    else if c == '.' && !rest.isEmpty then [' ']
    else c :: stripRegex rest

/-- Whitespace as `String.prototype.trim` sees it (the characters that can
arise here). -/
def isSpaceChar (c : Char) : Bool := c == ' ' || c == '\t' || c == '\n' || c == '\r'

/-- Model of `String.prototype.trim`. -/
def trimChars (l : List Char) : List Char :=
  ((l.dropWhile isSpaceChar).reverse.dropWhile isSpaceChar).reverse

/-- Model of `String.prototype.split(' ')`: split on every single space character
(adjacent separators yield empty pieces). -/
def splitOnSpace : List Char → List (List Char)
  | [] => [[]]
  | c :: rest =>
    if c == ' ' then [] :: splitOnSpace rest
    else
      match splitOnSpace rest with
      | [] => [[c]]
      | h :: t => (c :: h) :: t

/-- The `dateString` computed by `write`:
`toISOString → replace → trim → split(' ') → reverse → join(' ')`. -/
def dateStringChars (d : DateParts) : List Char :=
  List.intercalate [' '] ((splitOnSpace (trimChars (stripRegex (isoChars d)))).reverse)

/-- The computed `dateString` as a string. -/
def dateStringOf (d : DateParts) : String := String.mk (dateStringChars d)

/-! ## `write`: log to file -/

/-- Function `write(entry)`: a no-op unless `writeToFile`; otherwise prefix
`'[' + dateString + '] '`, `fs.mkdirp` the log file's directory (reporting
a failure via `console.error('log', 'fs.mkdirp', err)` and stopping), then
`fs.appendFile` the entry plus CRLF (reporting a failure via
`console.error('log', 'fs.appendFile', err)`).  Errors are only ever
reported, never thrown: the function is total into an effect list. -/
def write (env : Env) (entry : String) : List Effect :=
  if env.writeToFile = false then []
  else
    let dateString := dateStringOf env.now
    let logEntry := "[" ++ dateString ++ "] " ++ entry
    match env.mkdirpErr with
    | some e => [Effect.consoleError ("log fs.mkdirp " ++ e)]
    | none =>
      Effect.dirCreated (dirname (appLogFile env)) ::
        match env.appendErr with
        | some e => [Effect.consoleError ("log fs.appendFile " ++ e)]
        | none => [Effect.fileAppended (appLogFile env) (logEntry ++ "\r\n")]

/-! ## `parseLogEntry`: format log messages -/

/-- The body of the `for … in` loop of `parseLogEntry`: a value that is
non-null and of `typeof 'object'` is replaced by a CRLF followed by
`util.inspect(value, {colors: false, depth: null, showProxy: true,
showHidden: true})`; every other value is untouched. -/
def expandStructured (env : Env) (v : JSValue) : JSValue :=
  match v with
  | .obj o =>
      .prim ("\r\n" ++
        env.inspect { colors := false, depth := none, showProxy := true, showHidden := true } o)
  | v => v

/-- How `Array.prototype.join` renders one element: `null` and `undefined`
become empty, primitives their string form, a bare object its default
`toString`. -/
def joinElemString : JSValue → String
  | .undef => ""
  | .nullV => ""
  | .prim s => s
  | .obj _ => "[object Object]"

/-- The `{prefix, label, message}` triple built by `parseLogEntry`
(`prefix` is named `prefixStr` here). -/
structure LogParams where
  prefixStr : String
  label : JSValue
  message : String
deriving Repr

/-- Function `parseLogEntry(messageList)`: `prefix` is the upper-cased basename of
`module.parent.filename`; `label` is `messageList.shift()` (undefined on an
empty list); the remaining entries have structured values expanded and are
joined with single spaces. -/
def parseLogEntry (env : Env) (messageList : List JSValue) : LogParams :=
  { prefixStr := jsToUpper (basename env.parentFilename)
    label := messageList.headD .undef
    message :=
      String.intercalate " "
        (((messageList.drop 1).map (expandStructured env)).map joinElemString) }

/-! ## Console and file line rendering -/

/-- String conversion performed by `util.format`'s `%s` specifier (Node
stdlib): strings pass through, `null`/`undefined` print their names, an
object is inspected with `util.format`'s default inspect options. -/
def formatS (env : Env) : JSValue → String
  | .undef => "undefined"
  | .nullV => "null"
  | .prim s => s
  | .obj o =>
      env.inspect { colors := false, depth := some 2, showProxy := false, showHidden := false } o

/-- The styled console line
`util.format('[%s] [%s] %s', style.bold.inverse(prefix), style.bold(label), style(message))`. -/
def cliConsoleLine (env : Env) (style : Style) (p : LogParams) : String :=
  "[" ++ style.boldInverse p.prefixStr ++ "] [" ++
    style.boldStyled (formatS env p.label) ++ "] " ++ style.plain p.message

/-- The untagged file entry `util.format('[%s] [%s] %s', prefix, label, message)`
used by `log` and `devtools`. -/
def plainEntryLine (env : Env) (p : LogParams) : String :=
  "[" ++ p.prefixStr ++ "] [" ++ formatS env p.label ++ "] " ++ p.message

/-- The file entry `util.format('[%s] [ERROR] [%s] %s', prefix, label, message)`
used by `error`. -/
def errorEntryLine (env : Env) (p : LogParams) : String :=
  "[" ++ p.prefixStr ++ "] [ERROR] [" ++ formatS env p.label ++ "] " ++ p.message

/-- The file entry `util.format('[DEBUG] [%s] [%s] %s', prefix, label, message)`
used by `debug`, `info` and `warn`. -/
def debugEntryLine (env : Env) (p : LogParams) : String :=
  "[DEBUG] [" ++ p.prefixStr ++ "] [" ++ formatS env p.label ++ "] " ++ p.message

/-- Text content of the devtools `%c` console template
`'%c%s%c %c%s%c %c%s'`: the CSS arguments style the three segments and
contribute no text of their own. -/
def devtoolsConsoleLine (env : Env) (p : LogParams) : String :=
  p.prefixStr ++ " " ++ formatS env p.label ++ " " ++ p.message

/-! ## The six logging functions -/

/-- Function `printCliLogMessage` (`log`). -/
def printCliLogMessage (env : Env) (args : List JSValue) : List Effect :=
  if args.length = 0 then []
  else
    let p := parseLogEntry env args
    Effect.consoleLog (cliConsoleLine env env.styleDefault p) ::
      write env (plainEntryLine env p)

/-- Function `printCliErrorMessage` (`error`). -/
def printCliErrorMessage (env : Env) (args : List JSValue) : List Effect :=
  if args.length = 0 then []
  else
    let p := parseLogEntry env args
    Effect.consoleLog (cliConsoleLine env env.styleError p) ::
      write env (errorEntryLine env p)

/-- Function `printDevtoolsMessage` (`devtools`). -/
def printDevtoolsMessage (env : Env) (args : List JSValue) : List Effect :=
  if args.length = 0 then []
  else if env.isDebug = false then []
  else
    let p := parseLogEntry env args
    Effect.consoleLog (devtoolsConsoleLine env p) ::
      write env (plainEntryLine env p)

/-- Function `printCliDebugMessage` (`debug`): gated on `isDebug`, delegating to
`printDevtoolsMessage` when `process.type === 'renderer'`. -/
def printCliDebugMessage (env : Env) (args : List JSValue) : List Effect :=
  if args.length = 0 then []
  else if env.isDebug = false then []
  else if env.processType = "renderer" then printDevtoolsMessage env args
  else
    let p := parseLogEntry env args
    Effect.consoleLog (cliConsoleLine env env.styleDebug p) ::
      write env (debugEntryLine env p)

/-- Function `printCliInfoMessage` (`info`).  Note: the source has no `isDebug`
check here, and its file entry uses the `[DEBUG]` template. -/
def printCliInfoMessage (env : Env) (args : List JSValue) : List Effect :=
  if args.length = 0 then []
  else
    let p := parseLogEntry env args
    Effect.consoleLog (cliConsoleLine env env.styleInfo p) ::
      write env (debugEntryLine env p)

/-- Function `printCliWarnMessage` (`warn`).  Note: the source has no `isDebug`
check here, and its file entry uses the `[DEBUG]` template. -/
def printCliWarnMessage (env : Env) (args : List JSValue) : List Effect :=
  if args.length = 0 then []
  else
    let p := parseLogEntry env args
    Effect.consoleLog (cliConsoleLine env env.styleWarn p) ::
      write env (debugEntryLine env p)

/-! ## The facade factory (`module.exports`) -/

/-- The record of six logging functions returned by the factory. -/
structure Facade where
  log : List JSValue → List Effect
  error : List JSValue → List Effect
  debug : List JSValue → List Effect
  devtools : List JSValue → List Effect
  info : List JSValue → List Effect
  warn : List JSValue → List Effect

/-- The factory `module.exports = (options) => …`: set the module-global `writeToFile`
from `options && options.writeToFile` (`options : Option Bool` carries the
truthiness of the option when an options object is supplied); when it is
true, run `fs.mkdirpSync(appLogDirectory)` — whose failure throws, modelled
by `Except.error` — before returning the six bound logging functions. -/
def moduleExports (env : Env) (options : Option Bool) (mkdirpSyncErr : Option String) :
    Except String (Facade × List Effect) :=
  let wtf := options.getD false
  let env2 := { env with writeToFile := wtf }
  let fns : Facade :=
    { log := printCliLogMessage env2
      error := printCliErrorMessage env2
      debug := printCliDebugMessage env2
      devtools := printDevtoolsMessage env2
      info := printCliInfoMessage env2
      warn := printCliWarnMessage env2 }
  if wtf then
    match mkdirpSyncErr with
    | some e => .error e
    | none => .ok (fns, [Effect.dirCreated env2.appLogDirectory])
  else .ok (fns, [])

/-! ## Observation helpers -/

/-- Does an effect list contain any console output (either channel)? -/
def hasConsoleOutput (l : List Effect) : Bool :=
  l.any fun e =>
    match e with
    | .consoleLog _ => true
    | .consoleError _ => true
    | _ => false

/-- Does an effect list contain a file append? -/
def hasFileWrite (l : List Effect) : Bool :=
  l.any fun e =>
    match e with
    | .fileAppended _ _ => true
    | _ => false

/-- Does an effect list touch the filesystem at all (directory creation or
file append)? -/
def hasFsEffect (l : List Effect) : Bool :=
  l.any fun e =>
    match e with
    | .fileAppended _ _ => true
    | .dirCreated _ => true
    | _ => false

/-- The payloads of the file appends in an effect list. -/
def fileData (l : List Effect) : List String :=
  l.filterMap fun e =>
    match e with
    | .fileAppended _ d => some d
    | _ => none

/-- Replace the five styles of an environment (used to state that file
content is independent of the style table). -/
def withStyles (env : Env) (s₁ s₂ s₃ s₄ s₅ : Style) : Env :=
  { env with styleDefault := s₁, styleError := s₂, styleDebug := s₃,
             styleInfo := s₄, styleWarn := s₅ }

/-! ## Substring machinery -/

/-- Is `n` a prefix of `h` (on character lists)? -/
def isPrefOf : List Char → List Char → Bool
  | [], _ => true
  | _ :: _, [] => false
  | c :: n, d :: h => c == d && isPrefOf n h

/-- Is `n` a suffix of `h`? -/
def isSuffOf (n h : List Char) : Bool := isPrefOf n.reverse h.reverse

/-- Does `h` contain `n` as a contiguous substring? -/
def containsSub (n : List Char) : List Char → Bool
  | [] => isPrefOf n []
  | c :: rest => isPrefOf n (c :: rest) || containsSub n rest

/-! ## Sample environments -/

/-- A tagging style table usable in concrete evaluations. -/
def sampleStyle : Style :=
  { plain := fun s => "P(" ++ s ++ ")"
    boldStyled := fun s => "B(" ++ s ++ ")"
    boldInverse := fun s => "I(" ++ s ++ ")" }

/-- Sample instant 2026-10-11T13:14:15.123Z. -/
def sampleDate : DateParts :=
  { year := 2026, month := 10, day := 11, hour := 13, minute := 14, second := 15,
    millisecond := 123 }

/-- A concrete environment: file writing on, debug mode off, healthy
filesystem. -/
def sampleEnv : Env :=
  { appName := "ypp"
    appLogDirectory := "/var/log/ypp"
    parentFilename := "/app/main.js"
    isDebug := false
    processType := "browser"
    writeToFile := true
    now := sampleDate
    inspect := fun _ o => "OBJ" ++ toString o
    mkdirpErr := none
    appendErr := none
    styleDefault := sampleStyle
    styleError := sampleStyle
    styleDebug := sampleStyle
    styleInfo := sampleStyle
    styleWarn := sampleStyle }

/-- Variant of `sampleEnv` with debug mode on. -/
def sampleEnvDebug : Env := { sampleEnv with isDebug := true }

/-- Variant of `sampleEnv` with file writing off. -/
def sampleEnvOff : Env := { sampleEnv with writeToFile := false }

/-- Variant of `sampleEnv` whose next `fs.mkdirp` fails. -/
def sampleEnvMkdirFail : Env := { sampleEnv with mkdirpErr := some "EACCES" }

/-- Variant of `sampleEnv` whose next `fs.appendFile` fails. -/
def sampleEnvAppendFail : Env := { sampleEnv with appendErr := some "ENOSPC" }

/-! ## Helper lemmas: substrings -/

theorem isPrefOf_self_append (a b : List Char) : isPrefOf a (a ++ b) = true := by
  induction a with
  | nil => rfl
  | cons c n ih => simp [isPrefOf, ih]

theorem isSuffOf_append_self (a b : List Char) : isSuffOf b (a ++ b) = true := by
  simp only [isSuffOf, List.reverse_append]
  exact isPrefOf_self_append _ _

theorem containsSub_of_isPrefOf (n h : List Char) (hp : isPrefOf n h = true) :
    containsSub n h = true := by
  cases h with
  | nil => simpa [containsSub] using hp
  | cons c rest => simp [containsSub, hp]

theorem containsSub_append (n a b : List Char) : containsSub n (a ++ (n ++ b)) = true := by
  induction a with
  | nil => exact containsSub_of_isPrefOf _ _ (isPrefOf_self_append n b)
  | cons c a ih => simp [containsSub, ih]

/-! ## Helper lemmas: the characters of the ISO rendering -/

/-- A character that the `replace` regex leaves alone and that is not
whitespace: every character of the date and time chunks is good. -/
def goodChar (c : Char) : Bool :=
  !(c == 'Z') && !(c == 'z') && !(c == 'T') && !(c == 't') && !(c == '.') && !isSpaceChar c

theorem goodChar_digit (k : Nat) (h : k < 10) : goodChar (Char.ofNat (48 + k)) = true := by
  interval_cases k <;> decide

theorem toDecimalAux_mem (fuel : Nat) :
    ∀ n acc c, c ∈ toDecimalAux fuel n acc →
      (∃ m, c = Char.ofNat (48 + m % 10)) ∨ c ∈ acc := by
  induction fuel with
  | zero => intro n acc c hc; exact Or.inr hc
  | succ fuel ih =>
    intro n acc c hc
    rw [toDecimalAux] at hc
    by_cases hn : n < 10
    · simp only [hn, if_true] at hc
      rcases List.mem_cons.mp hc with h | h
      · exact Or.inl ⟨n, h⟩
      · exact Or.inr h
    · simp only [hn, if_false] at hc
      rcases ih _ _ _ hc with h | h
      · exact Or.inl h
      · rcases List.mem_cons.mp h with h' | h'
        · exact Or.inl ⟨n, h'⟩
        · exact Or.inr h'

theorem goodChar_of_mem_natDigits (n : Nat) (c : Char) (hc : c ∈ natDigits n) :
    goodChar c = true := by
  rcases toDecimalAux_mem _ _ _ _ hc with ⟨m, rfl⟩ | h
  · exact goodChar_digit _ (Nat.mod_lt _ (by norm_num))
  · simp at h

theorem goodChar_of_mem_padNat (w n : Nat) (c : Char) (hc : c ∈ padNat w n) :
    goodChar c = true := by
  rcases List.mem_append.mp hc with h | h
  · rw [List.eq_of_mem_replicate h]; decide
  · exact goodChar_of_mem_natDigits n c h

theorem toDecimalAux_ne_nil (fuel : Nat) :
    ∀ n acc, acc ≠ [] → toDecimalAux fuel n acc ≠ [] := by
  induction fuel with
  | zero => intro n acc h; exact h
  | succ fuel ih =>
    intro n acc _
    rw [toDecimalAux]
    by_cases hn : n < 10
    · simp [hn]
    · simp only [hn, if_false]
      exact ih _ _ (List.cons_ne_nil _ _)

theorem natDigits_ne_nil (n : Nat) : natDigits n ≠ [] := by
  rw [natDigits, toDecimalAux]
  by_cases hn : n < 10
  · simp [hn]
  · simp only [hn, if_false]
    exact toDecimalAux_ne_nil _ _ _ (List.cons_ne_nil _ _)

theorem padNat_ne_nil (w n : Nat) : padNat w n ≠ [] := by
  simp [padNat, natDigits_ne_nil]

theorem good_append {l₁ l₂ : List Char} (h₁ : ∀ c ∈ l₁, goodChar c = true)
    (h₂ : ∀ c ∈ l₂, goodChar c = true) : ∀ c ∈ l₁ ++ l₂, goodChar c = true := by
  intro c hc
  rcases List.mem_append.mp hc with h | h
  · exact h₁ c h
  · exact h₂ c h

theorem good_cons {a : Char} {l : List Char} (ha : goodChar a = true)
    (h : ∀ c ∈ l, goodChar c = true) : ∀ c ∈ a :: l, goodChar c = true := by
  intro c hc
  rcases List.mem_cons.mp hc with h' | h'
  · rw [h']; exact ha
  · exact h c h'

theorem goodChar_of_mem_isoDate (d : DateParts) : ∀ c ∈ isoDateChars d, goodChar c = true := by
  unfold isoDateChars
  exact good_append (good_append (goodChar_of_mem_padNat 4 d.year)
      (good_cons (by decide) (goodChar_of_mem_padNat 2 d.month)))
    (good_cons (by decide) (goodChar_of_mem_padNat 2 d.day))

theorem goodChar_of_mem_isoTime (d : DateParts) : ∀ c ∈ isoTimeChars d, goodChar c = true := by
  unfold isoTimeChars
  exact good_append (good_append (goodChar_of_mem_padNat 2 d.hour)
      (good_cons (by decide) (goodChar_of_mem_padNat 2 d.minute)))
    (good_cons (by decide) (goodChar_of_mem_padNat 2 d.second))

theorem isoDateChars_ne_nil (d : DateParts) : isoDateChars d ≠ [] := by
  simp [isoDateChars, padNat_ne_nil]

theorem isoTimeChars_ne_nil (d : DateParts) : isoTimeChars d ≠ [] := by
  simp [isoTimeChars, padNat_ne_nil]

theorem nonspace_of_good (c : Char) (h : goodChar c = true) : isSpaceChar c = false := by
  simp only [goodChar, Bool.and_eq_true, Bool.not_eq_true'] at h
  exact h.2

/-! ## Helper lemmas: the `replace → trim → split → reverse → join` pipeline -/

theorem strip_skip (c : Char) (hc : goodChar c = true) (rest : List Char) :
    stripRegex (c :: rest) = c :: stripRegex rest := by
  simp only [goodChar, Bool.and_eq_true, Bool.not_eq_true'] at hc
  obtain ⟨⟨⟨⟨⟨h1, h2⟩, h3⟩, h4⟩, h5⟩, _⟩ := hc
  simp [stripRegex, h1, h2, h3, h4, h5]

theorem strip_append_good (l r : List Char) (hl : ∀ c ∈ l, goodChar c = true) :
    stripRegex (l ++ r) = l ++ stripRegex r := by
  induction l with
  | nil => simp
  | cons c l ih =>
    rw [List.cons_append, strip_skip c (hl c (List.mem_cons_self c l)),
      ih fun x hx => hl x (List.mem_cons_of_mem c hx)]
    rfl

theorem dropWhile_append_ne (A r : List Char) (hA : A ≠ [])
    (h : ∀ c ∈ A, isSpaceChar c = false) :
    (A ++ r).dropWhile isSpaceChar = A ++ r := by
  cases A with
  | nil => exact absurd rfl hA
  | cons a A' =>
    rw [List.cons_append, List.dropWhile_cons]
    simp [h a (List.mem_cons_self a A')]

theorem trim_shape (A B : List Char) (hA : A ≠ []) (hAg : ∀ c ∈ A, isSpaceChar c = false)
    (hB : B ≠ []) (hBg : ∀ c ∈ B, isSpaceChar c = false) :
    trimChars (A ++ ' ' :: (B ++ [' '])) = A ++ ' ' :: B := by
  unfold trimChars
  rw [dropWhile_append_ne A _ hA hAg]
  have hrev : (A ++ ' ' :: (B ++ [' '])).reverse = ' ' :: (B.reverse ++ ' ' :: A.reverse) := by
    simp
  rw [hrev, List.dropWhile_cons]
  simp only [show isSpaceChar ' ' = true from rfl, if_true]
  rw [dropWhile_append_ne B.reverse _ (by simp [hB])
    (fun c hc => hBg c (List.mem_reverse.mp hc))]
  simp

theorem space_eq_false_of (c : Char) (h : isSpaceChar c = false) : (c == ' ') = false := by
  cases hcs : c == ' ' with
  | false => rfl
  | true => rw [isSpaceChar, hcs] at h; simp at h

theorem splitOnSpace_all_ne (l : List Char) (h : ∀ c ∈ l, isSpaceChar c = false) :
    splitOnSpace l = [l] := by
  induction l with
  | nil => rfl
  | cons c rest ih =>
    rw [splitOnSpace, space_eq_false_of c (h c (List.mem_cons_self c rest)),
      ih fun x hx => h x (List.mem_cons_of_mem c hx)]
    simp

theorem splitOnSpace_append (A r : List Char) (hA : ∀ c ∈ A, isSpaceChar c = false) :
    splitOnSpace (A ++ ' ' :: r) = A :: splitOnSpace r := by
  induction A with
  | nil => simp [splitOnSpace]
  | cons a A' ih =>
    rw [List.cons_append, splitOnSpace, space_eq_false_of a (hA a (List.mem_cons_self a A')),
      ih fun x hx => hA x (List.mem_cons_of_mem a hx)]
    simp

theorem stripRegex_iso (d : DateParts) :
    stripRegex (isoChars d) = isoDateChars d ++ ' ' :: (isoTimeChars d ++ [' ']) := by
  have h1 : isoChars d =
      isoDateChars d ++ 'T' :: (isoTimeChars d ++ '.' :: (padNat 3 d.millisecond ++ ['Z'])) := by
    simp [isoChars]
  rw [h1, strip_append_good _ _ (goodChar_of_mem_isoDate d)]
  congr 1
  rw [show stripRegex ('T' :: (isoTimeChars d ++ '.' :: (padNat 3 d.millisecond ++ ['Z']))) =
      ' ' :: stripRegex (isoTimeChars d ++ '.' :: (padNat 3 d.millisecond ++ ['Z'])) from by
    simp [stripRegex]]
  congr 1
  rw [strip_append_good _ _ (goodChar_of_mem_isoTime d)]
  congr 1
  have hne : (padNat 3 d.millisecond ++ ['Z']).isEmpty = false := by
    simp [List.isEmpty_iff]
  simp [stripRegex, hne]

/-- The computed `dateString` is the ISO time chunk, a space, then the ISO
date chunk — intra-chunk punctuation intact. -/
theorem dateStringChars_eq (d : DateParts) :
    dateStringChars d = isoTimeChars d ++ ' ' :: isoDateChars d := by
  unfold dateStringChars
  rw [stripRegex_iso,
    trim_shape _ _ (isoDateChars_ne_nil d)
      (fun c hc => nonspace_of_good c (goodChar_of_mem_isoDate d c hc))
      (isoTimeChars_ne_nil d)
      (fun c hc => nonspace_of_good c (goodChar_of_mem_isoTime d c hc)),
    splitOnSpace_append _ _
      (fun c hc => nonspace_of_good c (goodChar_of_mem_isoDate d c hc)),
    splitOnSpace_all_ne _
      (fun c hc => nonspace_of_good c (goodChar_of_mem_isoTime d c hc))]
  simp [List.intercalate]

/-! ## Spec-side definitions for refinement comparisons -/

/-- Worded from the spec (§4.1): a remaining argument that is a non-null
structured value is replaced by a leading line break followed by a deep,
non-truncated, uncolored structural dump including hidden fields; any
other argument is stringified as the join does. -/
def specArgString (env : Env) (v : JSValue) : String :=
  match v with
  | .obj o =>
      "\r\n" ++
        env.inspect { colors := false, depth := none, showProxy := true, showHidden := true } o
  | v => joinElemString v

/-- Worded from the spec (§4.1): the message is the remaining arguments,
each stringified, joined with single-space separators. -/
def specMessageOfRest (env : Env) (rest : List JSValue) : String :=
  String.intercalate " " (rest.map (specArgString env))

/-- Shape of a complete written file record: `'[' + dateString + '] '`,
the severity-specific entry, and the CRLF terminator — exactly as `write`
assembles it. -/
def fileLineOf (env : Env) (entry : String) : String :=
  "[" ++ dateStringOf env.now ++ "] " ++ entry ++ "\r\n"

/-- Arguments label `"X"`, messages `"a"`, `"b"`. -/
def c3Args : List JSValue := [JSValue.prim "X", JSValue.prim "a", JSValue.prim "b"]

/-! ## Claims -/

/-- C6: for every one of the six logging functions and every configuration,
a call with zero arguments is a no-op: it produces no console output, no
file write, and no error (each function immediately returns the empty
effect list). -/
theorem C6_zero_args_noop (env : Env) :
    printCliLogMessage env [] = [] ∧ printCliErrorMessage env [] = [] ∧
    printCliDebugMessage env [] = [] ∧ printDevtoolsMessage env [] = [] ∧
    printCliInfoMessage env [] = [] ∧ printCliWarnMessage env [] = [] :=
  ⟨rfl, rfl, rfl, rfl, rfl, rfl⟩

/-- C7: when the process-wide `writeToFile` flag is false, the file writer
is a complete no-op — no directory creation, no file append — and no
logging function performs any filesystem effect, regardless of severity. -/
theorem C7_write_noop (env : Env) (entry : String) (args : List JSValue)
    (h : env.writeToFile = false) :
    write env entry = [] ∧
    hasFsEffect (printCliLogMessage env args) = false ∧
    hasFsEffect (printCliErrorMessage env args) = false ∧
    hasFsEffect (printCliDebugMessage env args) = false ∧
    hasFsEffect (printDevtoolsMessage env args) = false ∧
    hasFsEffect (printCliInfoMessage env args) = false ∧
    hasFsEffect (printCliWarnMessage env args) = false := by
  have hw : write env entry = [] := by simp [write, h]
  refine ⟨hw, ?_, ?_, ?_, ?_, ?_, ?_⟩ <;>
    · simp only [printCliLogMessage, printCliErrorMessage, printCliDebugMessage,
        printDevtoolsMessage, printCliInfoMessage, printCliWarnMessage]
      split <;> try rfl
      all_goals first
        | (split <;> try rfl
           all_goals first
             | (split <;> simp [write, h, hasFsEffect])
             | simp [write, h, hasFsEffect])
        | simp [write, h, hasFsEffect]

/-- Closed witness for C7 at a concrete environment. -/
theorem C7_witness :
    write sampleEnvOff "entry" = [] ∧
    hasFsEffect (printCliLogMessage sampleEnvOff [JSValue.prim "A"]) = false ∧
    hasFsEffect (printCliErrorMessage sampleEnvOff [JSValue.prim "A"]) = false ∧
    hasFsEffect (printCliDebugMessage sampleEnvOff [JSValue.prim "A"]) = false ∧
    hasFsEffect (printDevtoolsMessage sampleEnvOff [JSValue.prim "A"]) = false ∧
    hasFsEffect (printCliInfoMessage sampleEnvOff [JSValue.prim "A"]) = false ∧
    hasFsEffect (printCliWarnMessage sampleEnvOff [JSValue.prim "A"]) = false :=
  C7_write_noop sampleEnvOff "entry" [JSValue.prim "A"] rfl

/-- C9: the facade factory with `writeToFile` true synchronously creates
the log directory before returning the six logging functions, and a
failure of `fs.mkdirpSync` is fatal — the exception propagates to the
caller of the construction call (`Except.error`), unlike the recovered
per-write path; with `writeToFile` falsy no directory is touched even if
creation would fail. -/
theorem C9_factory_mkdirp (env : Env) (e : String) :
    moduleExports env (some true) (some e) = Except.error e ∧
    (moduleExports env (some true) none).toOption.map Prod.snd =
      some [Effect.dirCreated env.appLogDirectory] ∧
    (moduleExports env (some false) (some e)).toOption.map Prod.snd = some [] ∧
    (moduleExports env none (some e)).toOption.map Prod.snd = some [] := by
  refine ⟨rfl, ?_, ?_, ?_⟩ <;> rfl

/-- C5: when a per-write filesystem operation fails, the failure is
reported to the console's error channel only — exactly one report, no
retry, no file append — and the logging call still completes with its
normal console line; nothing escapes to the caller (the call's value is a
plain effect list either way). -/
theorem C5_write_errors_recovered (env : Env) (args : List JSValue) (e : String)
    (hw : env.writeToFile = true) (ha : args ≠ []) :
    (env.mkdirpErr = some e →
      printCliLogMessage env args =
        [Effect.consoleLog (cliConsoleLine env env.styleDefault (parseLogEntry env args)),
         Effect.consoleError ("log fs.mkdirp " ++ e)]) ∧
    (env.mkdirpErr = none → env.appendErr = some e →
      printCliLogMessage env args =
        [Effect.consoleLog (cliConsoleLine env env.styleDefault (parseLogEntry env args)),
         Effect.dirCreated (dirname (appLogFile env)),
         Effect.consoleError ("log fs.appendFile " ++ e)]) ∧
    (env.mkdirpErr = some e → hasFileWrite (printCliLogMessage env args) = false) ∧
    (env.appendErr = some e → hasFileWrite (printCliLogMessage env args) = false) := by
  have hlen : ¬args.length = 0 := by simpa [List.length_eq_zero] using ha
  refine ⟨?_, ?_, ?_, ?_⟩
  · intro hm
    simp [printCliLogMessage, hlen, write, hw, hm]
  · intro hm hap
    simp [printCliLogMessage, hlen, write, hw, hm, hap]
  · intro hm
    simp [printCliLogMessage, hlen, write, hw, hm, hasFileWrite]
  · intro hap
    cases hm : env.mkdirpErr with
    | some e' => simp [printCliLogMessage, hlen, write, hw, hm, hasFileWrite]
    | none => simp [printCliLogMessage, hlen, write, hw, hm, hap, hasFileWrite]

/-- Closed witness for C5 at concrete failing environments. -/
theorem C5_witness :
    ((sampleEnvMkdirFail.mkdirpErr = some "EACCES" →
      printCliLogMessage sampleEnvMkdirFail [JSValue.prim "A"] =
        [Effect.consoleLog
          (cliConsoleLine sampleEnvMkdirFail sampleEnvMkdirFail.styleDefault
            (parseLogEntry sampleEnvMkdirFail [JSValue.prim "A"])),
         Effect.consoleError ("log fs.mkdirp " ++ "EACCES")]) ∧
    (sampleEnvMkdirFail.mkdirpErr = none → sampleEnvMkdirFail.appendErr = some "EACCES" →
      printCliLogMessage sampleEnvMkdirFail [JSValue.prim "A"] =
        [Effect.consoleLog
          (cliConsoleLine sampleEnvMkdirFail sampleEnvMkdirFail.styleDefault
            (parseLogEntry sampleEnvMkdirFail [JSValue.prim "A"])),
         Effect.dirCreated (dirname (appLogFile sampleEnvMkdirFail)),
         Effect.consoleError ("log fs.appendFile " ++ "EACCES")]) ∧
    (sampleEnvMkdirFail.mkdirpErr = some "EACCES" →
      hasFileWrite (printCliLogMessage sampleEnvMkdirFail [JSValue.prim "A"]) = false) ∧
    (sampleEnvMkdirFail.appendErr = some "EACCES" →
      hasFileWrite (printCliLogMessage sampleEnvMkdirFail [JSValue.prim "A"]) = false)) :=
  C5_write_errors_recovered sampleEnvMkdirFail [JSValue.prim "A"] "EACCES" rfl (by decide)

/-- C8: the entry formatter keeps the first argument as the label, and its
message is exactly what the spec words demand — each remaining non-null
structured argument replaced by a leading line break plus the deep,
non-truncated, uncolored, hidden-field-showing dump, the results joined
with single spaces, and the empty string when nothing remains. -/
theorem C8_formatter_message (env : Env) (label : JSValue) (rest : List JSValue) :
    (parseLogEntry env (label :: rest)).label = label ∧
    (parseLogEntry env (label :: rest)).message = specMessageOfRest env rest ∧
    (parseLogEntry env [label]).message = "" ∧
    (parseLogEntry env (label :: rest)).prefixStr = jsToUpper (basename env.parentFilename) := by
  refine ⟨rfl, ?_, rfl, rfl⟩
  have hfun : ∀ v : JSValue, joinElemString (expandStructured env v) = specArgString env v := by
    intro v
    cases v <;> rfl
  simp [parseLogEntry, specMessageOfRest, List.map_map, Function.comp_def, hfun]

/-- C3 counterexample: for `log` with `writeToFile: true`, label `"X"` and
messages `"a"`, `"b"`, the single written line is
`[13:14:15 2026-10-11] [MAIN.JS] [X] a b\r\n` — the label is rendered in
brackets, so the claimed literal substring `"X a b"` does not occur. -/
theorem C3_counterexample :
    fileData (printCliLogMessage sampleEnv c3Args) =
      ["[13:14:15 2026-10-11] [MAIN.JS] [X] a b\r\n"] ∧
    containsSub "X a b".data "[13:14:15 2026-10-11] [MAIN.JS] [X] a b\r\n".data = false := by
  decide

/-- C3 (amended): for `log` with `writeToFile: true`, label `"X"` and
message arguments `"a"`, `"b"`, the resulting file line contains the
literal substring `"[X] a b"` (label bracketed), begins with the
timestamp in brackets, and ends with a CRLF terminator. -/
theorem C3_amended_bracketed_label (env : Env)
    (h1 : env.writeToFile = true) (h2 : env.mkdirpErr = none) (h3 : env.appendErr = none) :
    fileData (printCliLogMessage env c3Args) =
      [fileLineOf env (plainEntryLine env (parseLogEntry env c3Args))] ∧
    containsSub "[X] a b".data
      (fileLineOf env (plainEntryLine env (parseLogEntry env c3Args))).data = true ∧
    isPrefOf ("[" ++ dateStringOf env.now ++ "] ").data
      (fileLineOf env (plainEntryLine env (parseLogEntry env c3Args))).data = true ∧
    isSuffOf "\r\n".data
      (fileLineOf env (plainEntryLine env (parseLogEntry env c3Args))).data = true := by
  have hp : plainEntryLine env (parseLogEntry env c3Args) =
      "[" ++ jsToUpper (basename env.parentFilename) ++ "] [" ++ "X" ++ "] " ++ "a b" := rfl
  have hd : (fileLineOf env (plainEntryLine env (parseLogEntry env c3Args))).data =
      ("[" ++ dateStringOf env.now ++ "] ").data ++
        (("[" ++ jsToUpper (basename env.parentFilename) ++ "] ").data ++
          ("[X] a b".data ++ "\r\n".data)) := by
    unfold fileLineOf
    rw [hp]
    simp only [String.data_append, List.append_assoc]
    rfl
  refine ⟨?_, ?_, ?_, ?_⟩
  · have hlen : ¬(c3Args.length = 0) := by decide
    simp [printCliLogMessage, hlen, write, h1, h2, h3, fileData, fileLineOf]
  · rw [hd, ← List.append_assoc]
    exact containsSub_append _ _ _
  · rw [hd]
    exact isPrefOf_self_append _ _
  · rw [hd, ← List.append_assoc, ← List.append_assoc]
    exact isSuffOf_append_self _ _

/-- Closed witness for the amended C3 at a concrete environment. -/
theorem C3_witness :
    fileData (printCliLogMessage sampleEnv c3Args) =
      [fileLineOf sampleEnv (plainEntryLine sampleEnv (parseLogEntry sampleEnv c3Args))] ∧
    containsSub "[X] a b".data
      (fileLineOf sampleEnv (plainEntryLine sampleEnv (parseLogEntry sampleEnv c3Args))).data
      = true ∧
    isPrefOf ("[" ++ dateStringOf sampleEnv.now ++ "] ").data
      (fileLineOf sampleEnv (plainEntryLine sampleEnv (parseLogEntry sampleEnv c3Args))).data
      = true ∧
    isSuffOf "\r\n".data
      (fileLineOf sampleEnv (plainEntryLine sampleEnv (parseLogEntry sampleEnv c3Args))).data
      = true :=
  C3_amended_bracketed_label sampleEnv rfl rfl rfl

/-- C4 counterexample: the error-severity file line places the `[ERROR]`
tag after the prefix, not between the timestamp and the prefix, and the
timestamp is `13:14:15 2026-10-11`, not `11 10 2026 13:14:15` — so the
claimed line format `[DD MM YYYY HH:MM:SS] [TAG] [PREFIX] [LABEL] MESSAGE`
fails on the code. -/
theorem C4_counterexample :
    fileData (printCliErrorMessage sampleEnv c3Args) =
      ["[13:14:15 2026-10-11] [MAIN.JS] [ERROR] [X] a b\r\n"] ∧
    containsSub "[ERROR] [MAIN.JS]".data
      "[13:14:15 2026-10-11] [MAIN.JS] [ERROR] [X] a b\r\n".data = false ∧
    "[13:14:15 2026-10-11] [MAIN.JS] [ERROR] [X] a b\r\n" ≠
      "[11 10 2026 13:14:15] [ERROR] [MAIN.JS] [X] a b\r\n" := by
  decide

/-- C4 (amended): every written line is
`[HH:MM:SS YYYY-MM-DD] ENTRY CRLF` where the entry is, per severity:
`[PREFIX] [LABEL] MESSAGE` for `log` and `devtools` (no tag),
`[PREFIX] [ERROR] [LABEL] MESSAGE` for `error` (the tag follows the
prefix), and `[DEBUG] [PREFIX] [LABEL] MESSAGE` for `debug`, `info` and
`warn` (the tag precedes the prefix); the line carries no color styling —
file content is unchanged under any replacement of the style table. -/
theorem C4_amended_file_format (env : Env) (args : List JSValue)
    (s₁ s₂ s₃ s₄ s₅ : Style)
    (h1 : env.writeToFile = true) (h2 : env.mkdirpErr = none) (h3 : env.appendErr = none)
    (h4 : args ≠ []) (h5 : env.isDebug = true) (h6 : ¬env.processType = "renderer") :
    fileData (printCliLogMessage env args) =
      [fileLineOf env (plainEntryLine env (parseLogEntry env args))] ∧
    fileData (printCliErrorMessage env args) =
      [fileLineOf env (errorEntryLine env (parseLogEntry env args))] ∧
    fileData (printCliDebugMessage env args) =
      [fileLineOf env (debugEntryLine env (parseLogEntry env args))] ∧
    fileData (printCliInfoMessage env args) =
      [fileLineOf env (debugEntryLine env (parseLogEntry env args))] ∧
    fileData (printCliWarnMessage env args) =
      [fileLineOf env (debugEntryLine env (parseLogEntry env args))] ∧
    fileData (printDevtoolsMessage env args) =
      [fileLineOf env (plainEntryLine env (parseLogEntry env args))] ∧
    containsSub "] [ERROR] [".data
      (fileLineOf env (errorEntryLine env (parseLogEntry env args))).data = true ∧
    isPrefOf ("[" ++ dateStringOf env.now ++ "] [DEBUG] [").data
      (fileLineOf env (debugEntryLine env (parseLogEntry env args))).data = true ∧
    fileData (printCliLogMessage (withStyles env s₁ s₂ s₃ s₄ s₅) args) =
      fileData (printCliLogMessage env args) ∧
    fileData (printCliErrorMessage (withStyles env s₁ s₂ s₃ s₄ s₅) args) =
      fileData (printCliErrorMessage env args) ∧
    fileData (printCliInfoMessage (withStyles env s₁ s₂ s₃ s₄ s₅) args) =
      fileData (printCliInfoMessage env args) ∧
    fileData (printCliWarnMessage (withStyles env s₁ s₂ s₃ s₄ s₅) args) =
      fileData (printCliWarnMessage env args) := by
  have hlen : ¬args.length = 0 := by simpa [List.length_eq_zero] using h4
  have hdErr : (fileLineOf env (errorEntryLine env (parseLogEntry env args))).data =
      ("[" ++ dateStringOf env.now ++ "] [").data ++
        ((parseLogEntry env args).prefixStr.data ++
          ("] [ERROR] [".data ++
            ((formatS env (parseLogEntry env args).label).data ++
              (("] " ++ (parseLogEntry env args).message ++ "\r\n").data)))) := by
    simp only [fileLineOf, errorEntryLine, String.data_append, List.append_assoc]
    rfl
  have hdDbg : (fileLineOf env (debugEntryLine env (parseLogEntry env args))).data =
      ("[" ++ dateStringOf env.now ++ "] [DEBUG] [").data ++
        ((parseLogEntry env args).prefixStr.data ++
          (("] [" ++ formatS env (parseLogEntry env args).label ++ "] " ++
            (parseLogEntry env args).message ++ "\r\n").data)) := by
    simp only [fileLineOf, debugEntryLine, String.data_append, List.append_assoc]
    rfl
  refine ⟨?_, ?_, ?_, ?_, ?_, ?_, ?_, ?_, ?_, ?_, ?_, ?_⟩
  · simp [printCliLogMessage, hlen, write, h1, h2, h3, fileData, fileLineOf]
  · simp [printCliErrorMessage, hlen, write, h1, h2, h3, fileData, fileLineOf]
  · simp [printCliDebugMessage, hlen, h5, h6, write, h1, h2, h3, fileData, fileLineOf]
  · simp [printCliInfoMessage, hlen, write, h1, h2, h3, fileData, fileLineOf]
  · simp [printCliWarnMessage, hlen, write, h1, h2, h3, fileData, fileLineOf]
  · simp [printDevtoolsMessage, hlen, h5, write, h1, h2, h3, fileData, fileLineOf]
  · rw [hdErr, ← List.append_assoc]
    exact containsSub_append _ _ _
  · rw [hdDbg]
    exact isPrefOf_self_append _ _
  · simp [printCliLogMessage, hlen, withStyles, write, h1, h2, h3, fileData]; rfl
  · simp [printCliErrorMessage, hlen, withStyles, write, h1, h2, h3, fileData]; rfl
  · simp [printCliInfoMessage, hlen, withStyles, write, h1, h2, h3, fileData]; rfl
  · simp [printCliWarnMessage, hlen, withStyles, write, h1, h2, h3, fileData]; rfl

/-- Closed witness for the amended C4 at a concrete environment. -/
theorem C4_witness :
    fileData (printCliLogMessage sampleEnvDebug c3Args) =
      [fileLineOf sampleEnvDebug
        (plainEntryLine sampleEnvDebug (parseLogEntry sampleEnvDebug c3Args))] ∧
    fileData (printCliErrorMessage sampleEnvDebug c3Args) =
      [fileLineOf sampleEnvDebug
        (errorEntryLine sampleEnvDebug (parseLogEntry sampleEnvDebug c3Args))] ∧
    fileData (printCliDebugMessage sampleEnvDebug c3Args) =
      [fileLineOf sampleEnvDebug
        (debugEntryLine sampleEnvDebug (parseLogEntry sampleEnvDebug c3Args))] ∧
    fileData (printCliInfoMessage sampleEnvDebug c3Args) =
      [fileLineOf sampleEnvDebug
        (debugEntryLine sampleEnvDebug (parseLogEntry sampleEnvDebug c3Args))] ∧
    fileData (printCliWarnMessage sampleEnvDebug c3Args) =
      [fileLineOf sampleEnvDebug
        (debugEntryLine sampleEnvDebug (parseLogEntry sampleEnvDebug c3Args))] ∧
    fileData (printDevtoolsMessage sampleEnvDebug c3Args) =
      [fileLineOf sampleEnvDebug
        (plainEntryLine sampleEnvDebug (parseLogEntry sampleEnvDebug c3Args))] ∧
    containsSub "] [ERROR] [".data
      (fileLineOf sampleEnvDebug
        (errorEntryLine sampleEnvDebug (parseLogEntry sampleEnvDebug c3Args))).data = true ∧
    isPrefOf ("[" ++ dateStringOf sampleEnvDebug.now ++ "] [DEBUG] [").data
      (fileLineOf sampleEnvDebug
        (debugEntryLine sampleEnvDebug (parseLogEntry sampleEnvDebug c3Args))).data = true ∧
    fileData (printCliLogMessage
        (withStyles sampleEnvDebug sampleStyle sampleStyle sampleStyle sampleStyle sampleStyle)
        c3Args) =
      fileData (printCliLogMessage sampleEnvDebug c3Args) ∧
    fileData (printCliErrorMessage
        (withStyles sampleEnvDebug sampleStyle sampleStyle sampleStyle sampleStyle sampleStyle)
        c3Args) =
      fileData (printCliErrorMessage sampleEnvDebug c3Args) ∧
    fileData (printCliInfoMessage
        (withStyles sampleEnvDebug sampleStyle sampleStyle sampleStyle sampleStyle sampleStyle)
        c3Args) =
      fileData (printCliInfoMessage sampleEnvDebug c3Args) ∧
    fileData (printCliWarnMessage
        (withStyles sampleEnvDebug sampleStyle sampleStyle sampleStyle sampleStyle sampleStyle)
        c3Args) =
      fileData (printCliWarnMessage sampleEnvDebug c3Args) :=
  C4_amended_file_format sampleEnvDebug c3Args
    sampleStyle sampleStyle sampleStyle sampleStyle sampleStyle
    rfl rfl rfl (by decide) rfl (by decide)

/-- C1 counterexample: with the debug flag inactive (and file writing on),
a one-label-one-message call to `info` produces console output and a file
write, and a call to `warn` produces console output — so the claim that
`info` and `warn` are gated on debug mode fails on the code. -/
theorem C1_counterexample :
    sampleEnv.isDebug = false ∧
    hasConsoleOutput (printCliInfoMessage sampleEnv [JSValue.prim "TEST", JSValue.prim "hello"])
      = true ∧
    hasFileWrite (printCliInfoMessage sampleEnv [JSValue.prim "TEST", JSValue.prim "hello"])
      = true ∧
    hasConsoleOutput (printCliWarnMessage sampleEnv [JSValue.prim "TEST", JSValue.prim "hello"])
      = true ∧
    hasFileWrite (printCliWarnMessage sampleEnv [JSValue.prim "TEST", JSValue.prim "hello"])
      = true := by
  decide

/-- C1 (amended): only `debug` (and `devtools`) are gated on the
process-wide debug flag — with the flag inactive they produce no console
output and no file write — while `info` and `warn` are not gated and still
produce console output when given at least one argument. -/
theorem C1_amended_debug_gating (env : Env) (args : List JSValue)
    (h : env.isDebug = false) :
    printCliDebugMessage env args = [] ∧
    printDevtoolsMessage env args = [] ∧
    (args ≠ [] →
      hasConsoleOutput (printCliInfoMessage env args) = true ∧
      hasConsoleOutput (printCliWarnMessage env args) = true) := by
  refine ⟨?_, ?_, ?_⟩
  · simp [printCliDebugMessage, printDevtoolsMessage, h]
  · simp [printDevtoolsMessage, h]
  · intro ha
    have hlen : ¬args.length = 0 := by simpa [List.length_eq_zero] using ha
    constructor
    · simp [printCliInfoMessage, hlen, hasConsoleOutput]
    · simp [printCliWarnMessage, hlen, hasConsoleOutput]

/-- Closed witness for the amended C1 at a concrete environment. -/
theorem C1_witness :
    printCliDebugMessage sampleEnv [JSValue.prim "A"] = [] ∧
    printDevtoolsMessage sampleEnv [JSValue.prim "A"] = [] ∧
    ([JSValue.prim "A"] ≠ ([] : List JSValue) →
      hasConsoleOutput (printCliInfoMessage sampleEnv [JSValue.prim "A"]) = true ∧
      hasConsoleOutput (printCliWarnMessage sampleEnv [JSValue.prim "A"]) = true) :=
  C1_amended_debug_gating sampleEnv [JSValue.prim "A"] rfl

/-- C2 counterexample: at the instant 2026-10-11T13:14:15.123Z the computed
timestamp is `13:14:15 2026-10-11` — time first, then date, punctuation
intact — not the claimed `11 10 2026 13:14:15` (`DD MM YYYY HH:MM:SS`). -/
theorem C2_counterexample :
    dateStringOf sampleDate = "13:14:15 2026-10-11" ∧
    dateStringOf sampleDate ≠ "11 10 2026 13:14:15" := by
  decide

/-- C2 (amended): the timestamp prefixed to every file write is
`HH:MM:SS YYYY-MM-DD`: the ISO-8601 time chunk (colons intact), a space,
then the ISO-8601 date chunk (hyphens intact) — the `T` and the
fractional-seconds-plus-zone suffix each collapse to a separator and the
two chunks are swapped, but single fields are not reordered and intra-chunk
punctuation is not stripped; the written record is that timestamp in
brackets, the entry, and CRLF. -/
theorem C2_amended_timestamp (d : DateParts) (env : Env) (entry : String)
    (h1 : env.writeToFile = true) (h2 : env.mkdirpErr = none) (h3 : env.appendErr = none) :
    dateStringChars d = isoTimeChars d ++ ' ' :: isoDateChars d ∧
    write env entry =
      [Effect.dirCreated (dirname (appLogFile env)),
       Effect.fileAppended (appLogFile env) (fileLineOf env entry)] := by
  refine ⟨dateStringChars_eq d, ?_⟩
  simp [write, h1, h2, h3, fileLineOf]

/-- Closed witness for the amended C2 at a concrete date and environment. -/
theorem C2_witness :
    dateStringChars sampleDate = isoTimeChars sampleDate ++ ' ' :: isoDateChars sampleDate ∧
    write sampleEnv "E" =
      [Effect.dirCreated (dirname (appLogFile sampleEnv)),
       Effect.fileAppended (appLogFile sampleEnv) (fileLineOf sampleEnv "E")] :=
  C2_amended_timestamp sampleDate sampleEnv "E" rfl rfl rfl

/-- C10: a `devtools` call with arguments, debug mode active and
`writeToFile` on writes a file line of exactly the plain `log` severity's
untagged format; the call's effects are identical for every
`process.type`, and its file effects coincide with `log`'s on the same
arguments. -/
theorem C10_devtools_write (env : Env) (args : List JSValue) (pt : String)
    (h1 : args ≠ []) (h2 : env.isDebug = true) :
    printDevtoolsMessage { env with processType := pt } args = printDevtoolsMessage env args ∧
    (printDevtoolsMessage env args).drop 1 = (printCliLogMessage env args).drop 1 ∧
    fileData (printDevtoolsMessage env args) = fileData (printCliLogMessage env args) ∧
    (env.writeToFile = true → env.mkdirpErr = none → env.appendErr = none →
      fileData (printDevtoolsMessage env args) =
        [fileLineOf env (plainEntryLine env (parseLogEntry env args))]) := by
  have hlen : ¬args.length = 0 := by simpa [List.length_eq_zero] using h1
  refine ⟨rfl, ?_, ?_, ?_⟩
  · simp [printDevtoolsMessage, printCliLogMessage, hlen, h2]
  · simp [printDevtoolsMessage, printCliLogMessage, hlen, h2, fileData]
  · intro hw hm hap
    simp [printDevtoolsMessage, hlen, h2, write, hw, hm, hap, fileData, fileLineOf]

/-- Closed witness for C10 at a concrete environment. -/
theorem C10_witness :
    printDevtoolsMessage { sampleEnvDebug with processType := "renderer" } [JSValue.prim "A"] =
      printDevtoolsMessage sampleEnvDebug [JSValue.prim "A"] ∧
    (printDevtoolsMessage sampleEnvDebug [JSValue.prim "A"]).drop 1 =
      (printCliLogMessage sampleEnvDebug [JSValue.prim "A"]).drop 1 ∧
    fileData (printDevtoolsMessage sampleEnvDebug [JSValue.prim "A"]) =
      fileData (printCliLogMessage sampleEnvDebug [JSValue.prim "A"]) ∧
    (sampleEnvDebug.writeToFile = true → sampleEnvDebug.mkdirpErr = none →
      sampleEnvDebug.appendErr = none →
      fileData (printDevtoolsMessage sampleEnvDebug [JSValue.prim "A"]) =
        [fileLineOf sampleEnvDebug
          (plainEntryLine sampleEnvDebug (parseLogEntry sampleEnvDebug [JSValue.prim "A"]))]) :=
  C10_devtools_write sampleEnvDebug [JSValue.prim "A"] "renderer" (by decide) rfl

end Logger
